import Mathlib

/-!
Shallow embedding of `src/client.rs` from the windfarm-monitoring repository:
a connection-lifecycle manager and message relay between a channel-based
application interface and a callback-driven cloud transport
(`azure_iot_sdk`).  The embedding models the default build (the optional
`systemd` watchdog feature is compiled out).

Opaque payload types from the external SDK (`serde_json::Value`,
`IotMessage`, `UnauthenticatedReason`) are modelled as wrappers around `Nat`
with decidable equality; their internal structure is never inspected by the
code under verification.
-/

namespace WindfarmClient

/-- Opaque structured payload (`serde_json::Value`); the client never inspects
it, so it is modelled as an atom with decidable equality. -/
structure JsonValue where
  val : Nat
deriving DecidableEq, Repr

/-- Opaque IoT hub message (`azure_iot_sdk::client::IotMessage`). -/
structure IotMessage where
  val : Nat
deriving DecidableEq, Repr

/-- Opaque enumerated cause carried by `AuthenticationStatus::Unauthenticated`. -/
structure UnauthenticatedReason where
  val : Nat
deriving DecidableEq, Repr

/-- SDK `TwinUpdateState`: distinguishes a full (`Complete`) from an
incremental (SDK name: `Partial`, here `Patch`) device-twin update. -/
inductive TwinUpdateState
  | Complete
  | Patch
deriving DecidableEq, Repr

/-- SDK `AuthenticationStatus`, the argument of `handle_connection_status`. -/
inductive AuthenticationStatus
  | Authenticated
  | Unauthenticated (reason : UnauthenticatedReason)
deriving DecidableEq, Repr

/-- Errors of the SDK error type `IotError`.  The embedding distinguishes the
error produced by a failed channel `send` (converted by the `?` operator from
`SendError`) from errors originating in transport operations and transport
construction, each carrying an opaque code. -/
inductive IotError
  | sendError
  | transportError (code : Nat)
  | constructionError (code : Nat)
deriving DecidableEq, Repr

/-- The `Message` enum of `client.rs`: the closed taxonomy multiplexed over
both channel directions. -/
inductive Message
  | Desired (state : TwinUpdateState) (value : JsonValue)
  | Reported (value : JsonValue)
  | D2C (payload : IotMessage)
  | C2D (payload : IotMessage)
  | Authenticated
  | Unauthenticated (reason : UnauthenticatedReason)
  | Terminate
deriving DecidableEq, Repr

/-- State of an mpsc channel of `Message`s as seen through a `Sender`:
the queue of messages enqueued so far and whether the `Receiver` end is
still alive.  `std::sync::mpsc::Sender::send` succeeds and appends exactly
when the receiver is alive. -/
structure ChannelState where
  queue : List Message
  receiverAlive : Bool
deriving DecidableEq, Repr

/-- Model of `Sender::send`: appends the message and returns `ok` when the
receiver is alive, otherwise leaves the channel unchanged and fails. -/
def chanSend (ch : ChannelState) (m : Message) : ChannelState × Except Unit Unit :=
  if ch.receiverAlive then ({ ch with queue := ch.queue ++ [m] }, .ok ())
  else (ch, .error ())

/-- Direct method map: names of remotely invocable methods (handlers are
opaque to this core and never invoked by it). -/
abbrev DirectMethodMap := List String

/-- The `ClientEventHandler` struct: optional direct-method map and the
sending half `tx` of the application-facing channel.  In the embedding the
channel state is passed to each callback explicitly. -/
structure ClientEventHandler where
  direct_methods : Option DirectMethodMap
deriving DecidableEq, Repr

/-- Result of a callback that may panic: Rust `unwrap()` on a failed `send`
aborts the thread rather than returning. -/
inductive PanicOr (α : Type)
  | ok (a : α)
  | panicked
deriving DecidableEq, Repr

/-- `ClientEventHandler::handle_connection_status` (client.rs lines 27-34):
translates the status into `Message::Authenticated` or
`Message::Unauthenticated(reason)` and enqueues it on `tx`; the send result
is `unwrap()`ed, so a failed enqueue panics. -/
def handle_connection_status (ch : ChannelState) (auth_status : AuthenticationStatus) :
    PanicOr ChannelState :=
  match auth_status with
  | .Authenticated =>
      match chanSend ch .Authenticated with
      | (ch2, .ok _) => .ok ch2
      | (_, .error _) => .panicked
  | .Unauthenticated reason =>
      match chanSend ch (.Unauthenticated reason) with
      | (ch2, .ok _) => .ok ch2
      | (_, .error _) => .panicked

/-- `ClientEventHandler::handle_c2d_message` (lines 36-39): enqueues
`Message::C2D(message)`; a failed enqueue is propagated by `?` as an
`IotError`. -/
def handle_c2d_message (ch : ChannelState) (message : IotMessage) :
    ChannelState × Except IotError Unit :=
  match chanSend ch (.C2D message) with
  | (ch2, .ok _) => (ch2, .ok ())
  | (ch2, .error _) => (ch2, .error .sendError)

/-- `ClientEventHandler::get_c2d_message_property_keys` (lines 41-43). -/
def get_c2d_message_property_keys : List String := ["p1", "p2"]

/-- `ClientEventHandler::handle_twin_desired` (lines 45-53): enqueues
`Message::Desired(state, desired)`; a failed enqueue is propagated by `?`. -/
def handle_twin_desired (ch : ChannelState) (state : TwinUpdateState)
    (desired : JsonValue) : ChannelState × Except IotError Unit :=
  match chanSend ch (.Desired state desired) with
  | (ch2, .ok _) => (ch2, .ok ())
  | (ch2, .error _) => (ch2, .error .sendError)

/-- `ClientEventHandler::get_direct_methods` (lines 55-57). -/
def get_direct_methods (h : ClientEventHandler) : Option DirectMethodMap :=
  h.direct_methods

/-- SDK `ClientType`, returned by `IotHubClient::get_client_type()`. -/
inductive ClientType
  | Device
  | Module
  | Edge
deriving DecidableEq, Repr

/-- The three transport acquisition strategies of the `match` in
`Client::run` (lines 94-102). -/
inductive TransportSource
  | connectionString (s : String)
  | identityService
  | edgeEnvironment
deriving DecidableEq, Repr

/-- Transport construction selection, embedding the `match` on
`IotHubClient::get_client_type()` at client.rs lines 94-102: the first arm
`_ if connection_string.is_some()` fires for every client type when a
connection string is supplied; otherwise `Device | Module` selects the
identity service and `Edge` the edge environment. -/
def selectTransportSource (client_type : ClientType)
    (connection_string : Option String) : TransportSource :=
  match connection_string with
  | some s => .connectionString s
  | none =>
      match client_type with
      | .Device => .identityService
      | .Module => .identityService
      | .Edge => .edgeEnvironment

/-- Observable events of the background task, in order of occurrence: reads
of the shared run flag (the `while *running.lock().unwrap()` check, with the
value read), writes of the flag by the lifecycle operations, the transport
calls `send_reported_state` / `send_d2c_message`, and `do_work` ticks. -/
inductive Ev
  | flagRead (value : Bool)
  | flagWriteTrue
  | flagWriteFalse
  | sendReported (value : JsonValue)
  | sendD2C (payload : IotMessage)
  | doWork
deriving DecidableEq, Repr

/-- Whether an event is a transport send call. -/
def isSend : Ev → Bool
  | .sendReported _ => true
  | .sendD2C _ => true
  | _ => false

/-- Whether an event touches the shared run flag (read or write). -/
def isFlagAccess : Ev → Bool
  | .flagRead _ => true
  | .flagWriteTrue => true
  | .flagWriteFalse => true
  | _ => false

/-- Whether an event writes the shared run flag. -/
def isFlagWrite : Ev → Bool
  | .flagWriteTrue => true
  | .flagWriteFalse => true
  | _ => false

/-- Result of `rx.recv_timeout(hundred_millis)` in one loop iteration:
a received message, `RecvTimeoutError::Timeout`, or
`RecvTimeoutError::Disconnected`. -/
inductive RecvResult
  | msg (m : Message)
  | timeout
  | disconnected
deriving DecidableEq, Repr

/-- Environment of one loop iteration: the value the shared run flag holds
at the `while` check (the controller may flip it concurrently) and the
outcome of the channel receive. -/
structure IterInput where
  flag : Bool
  recv : RecvResult
deriving DecidableEq, Repr

/-- Terminal result of the background task (`Result<(), IotError>`): the
value `stop()` obtains by joining it. -/
inductive LoopExit
  | ok
  | err (e : IotError)
deriving DecidableEq, Repr

/-- The `while` loop of `Client::run` (client.rs lines 104-119), one
recursion step per iteration.  `σ k` is the transport's response to the
`k`-th send call (`send_reported_state` or `send_d2c_message`); `do_work`
returns nothing and cannot fail.  Each iteration: read the flag (exit `ok`
if false), receive one message with bounded wait, dispatch it —
`Reported`/`D2C` are forwarded to the transport with `?` on the result,
`Terminate` returns `Ok(())` at once, any other message is logged and
ignored, and any receive error (`Err(_)`) is ignored — then tick `do_work`.
`none` means the supplied iteration environment was exhausted before the
loop exited. -/
def runLoop (σ : Nat → Except IotError Unit) :
    List IterInput → Nat → Option (LoopExit × List Ev)
  | [], _ => none
  | i :: rest, k =>
      if i.flag then
        match i.recv with
        | .msg (.Reported reported) =>
            match σ k with
            | .error e => some (.err e, [.flagRead i.flag, .sendReported reported])
            | .ok _ =>
                (runLoop σ rest (k + 1)).map fun r =>
                  (r.1, .flagRead i.flag :: .sendReported reported :: .doWork :: r.2)
        | .msg (.D2C telemetry) =>
            match σ k with
            | .error e => some (.err e, [.flagRead i.flag, .sendD2C telemetry])
            | .ok _ =>
                (runLoop σ rest (k + 1)).map fun r =>
                  (r.1, .flagRead i.flag :: .sendD2C telemetry :: .doWork :: r.2)
        | .msg .Terminate => some (.ok, [.flagRead i.flag])
        | .msg _ =>
            (runLoop σ rest k).map fun r =>
              (r.1, .flagRead i.flag :: .doWork :: r.2)
        | .timeout =>
            (runLoop σ rest k).map fun r =>
              (r.1, .flagRead i.flag :: .doWork :: r.2)
        | .disconnected =>
            (runLoop σ rest k).map fun r =>
              (r.1, .flagRead i.flag :: .doWork :: r.2)
      else
        some (.ok, [.flagRead i.flag])

/-- The whole background task spawned by `Client::run` (lines 84-122):
construct the transport from the selected source (`construct` gives the
outcome of each acquisition strategy; `?` propagates a failure before the
loop is entered), then run the loop. -/
def runTask (construct : TransportSource → Except IotError Unit)
    (σ : Nat → Except IotError Unit) (client_type : ClientType)
    (connection_string : Option String) (inputs : List IterInput) :
    Option (LoopExit × List Ev) :=
  match construct (selectTransportSource client_type connection_string) with
  | .error e => some (.err e, [])
  | .ok _ => runLoop σ inputs 0

/-- The `Client` struct: the stored background-task handle (`None` until
`run()` is called; once the task has completed, joining it yields the stored
`LoopExit`) and the shared run flag. -/
structure Client where
  thread : Option LoopExit
  runFlag : Bool
deriving DecidableEq, Repr

/-- `Client::new` (lines 66-71): no task handle, flag false. -/
def Client.new : Client :=
  { thread := none, runFlag := false }

/-- `Client::run` (lines 73-123): sets the shared run flag to true (its only
flag access, recorded in the returned event list), spawns the background
task and stores its handle.  The stored `thread` is the task's eventual
result; `none` if the modelled iteration environment does not make the task
exit. -/
def Client.run (c : Client) (construct : TransportSource → Except IotError Unit)
    (σ : Nat → Except IotError Unit) (client_type : ClientType)
    (connection_string : Option String) (inputs : List IterInput) :
    Client × List Ev :=
  ({ c with
      runFlag := true,
      thread := (runTask construct σ client_type connection_string inputs).map Prod.fst },
   [.flagWriteTrue])

/-- Outcome of `Client::stop` (lines 125-129): the joined task's result, or
a panic when `self.thread` is `None` and `unwrap()` aborts. -/
inductive StopOutcome
  | ok
  | err (e : IotError)
  | panicked
deriving DecidableEq, Repr

/-- `Client::stop` (lines 125-129): writes the run flag to false (its only
flag access, recorded in the returned event list), then `unwrap()`s the
stored handle — panicking if it is `None` — and awaits it, returning the
task's terminal result. -/
def Client.stop (c : Client) : StopOutcome × List Ev :=
  match c.thread with
  | none => (.panicked, [.flagWriteFalse])
  | some .ok => (.ok, [.flagWriteFalse])
  | some (.err e) => (.err e, [.flagWriteFalse])

/-- Messages successfully received from the application-to-manager channel,
in order, over an iteration environment. -/
def recvMsgs : List IterInput → List Message
  | [] => []
  | i :: rest =>
      match i.recv with
      | .msg m => m :: recvMsgs rest
      | _ => recvMsgs rest

/-- Modelled from the spec (claim C1's statement, not from the code): the
transport send calls that a submitted message sequence should produce —
each `Reported`/`D2C` submitted before the first `Terminate`, in submission
order, everything else skipped. -/
def outboundSends : List Message → List Ev
  | [] => []
  | .Reported v :: rest => .sendReported v :: outboundSends rest
  | .D2C m :: rest => .sendD2C m :: outboundSends rest
  | .Terminate :: _ => []
  | .Desired _ _ :: rest => outboundSends rest
  | .C2D _ :: rest => outboundSends rest
  | .Authenticated :: rest => outboundSends rest
  | .Unauthenticated _ :: rest => outboundSends rest

/-- C2: whenever the run loop receives a `Terminate` message, it exits on
that very iteration with the success result: the resulting trace is exactly
the one flag read of that iteration — no `do_work` tick is performed, the
flag is not re-checked, and nothing from the remaining environment (in
particular no further poll timeout) is consumed, independently of the
transport behaviour `σ`. -/
theorem terminate_exits_immediately (σ : Nat → Except IotError Unit)
    (rest : List IterInput) (k : Nat) :
    runLoop σ (⟨true, .msg .Terminate⟩ :: rest) k =
      some (.ok, [.flagRead true]) := rfl

/-- C4: transport construction precedence — a supplied connection string
wins for every client type; absent one, `Device` and `Module` use the
identity service and `Edge` uses the edge environment. -/
theorem transport_construction_precedence :
    (∀ (ct : ClientType) (s : String),
        selectTransportSource ct (some s) = .connectionString s) ∧
    selectTransportSource .Device none = .identityService ∧
    selectTransportSource .Module none = .identityService ∧
    selectTransportSource .Edge none = .edgeEnvironment :=
  ⟨fun _ _ => rfl, rfl, rfl, rfl⟩

/-- C10: calling `stop()` on a freshly constructed client (no preceding
`run()`) panics, because the stored task handle is `None` and is
`unwrap()`ed; once `run()` has stored a completed handle, `stop()` is total
and returns the task's result. -/
theorem stop_without_run_panics :
    (Client.stop Client.new).1 = .panicked ∧
    (∀ b : Bool, (Client.stop ⟨some .ok, b⟩).1 = .ok) ∧
    (∀ (e : IotError) (b : Bool), (Client.stop ⟨some (.err e), b⟩).1 = .err e) :=
  ⟨rfl, fun _ => rfl, fun _ _ => rfl⟩

/-- C6: while the application-facing channel's receiver is alive, each
transport-originated event handled by the adapter enqueues exactly one
corresponding `Message` — `Authenticated`, `Unauthenticated reason`,
`C2D payload` or `Desired state value` — with the payload passed through
unchanged, and nothing else. -/
theorem transport_events_enqueue_one_message (ch : ChannelState)
    (h : ch.receiverAlive = true) (reason : UnauthenticatedReason)
    (m : IotMessage) (st : TwinUpdateState) (v : JsonValue) :
    handle_connection_status ch .Authenticated =
      .ok { ch with queue := ch.queue ++ [.Authenticated] } ∧
    handle_connection_status ch (.Unauthenticated reason) =
      .ok { ch with queue := ch.queue ++ [.Unauthenticated reason] } ∧
    handle_c2d_message ch m =
      ({ ch with queue := ch.queue ++ [.C2D m] }, .ok ()) ∧
    handle_twin_desired ch st v =
      ({ ch with queue := ch.queue ++ [.Desired st v] }, .ok ()) := by
  simp [handle_connection_status, handle_c2d_message, handle_twin_desired,
    chanSend, h]

/-- Witness for C6 at a concrete channel and concrete payloads. -/
theorem transport_events_enqueue_one_message_witness :
    (ChannelState.mk [] true).receiverAlive = true ∧
    (handle_connection_status ⟨[], true⟩ .Authenticated =
        .ok ⟨[.Authenticated], true⟩ ∧
      handle_connection_status ⟨[], true⟩ (.Unauthenticated ⟨2⟩) =
        .ok ⟨[.Unauthenticated ⟨2⟩], true⟩ ∧
      handle_c2d_message ⟨[], true⟩ ⟨5⟩ = (⟨[.C2D ⟨5⟩], true⟩, .ok ()) ∧
      handle_twin_desired ⟨[], true⟩ .Complete ⟨7⟩ =
        (⟨[.Desired .Complete ⟨7⟩], true⟩, .ok ())) :=
  ⟨rfl, transport_events_enqueue_one_message ⟨[], true⟩ rfl ⟨2⟩ ⟨5⟩ .Complete ⟨7⟩⟩

/-- C7 counterexample: with the receiver of the application-facing channel
gone, `handle_connection_status` does not surface the enqueue failure as an
error — it `unwrap()`s the failed send and panics. -/
theorem connection_status_unwrap_panics :
    handle_connection_status ⟨[], false⟩ .Authenticated = .panicked := rfl

/-- C7 amended: when the receiver is gone, `handle_c2d_message` and
`handle_twin_desired` surface the enqueue failure as a transport-level
error from the call, but `handle_connection_status` panics (`unwrap()`)
instead of propagating an error. -/
theorem enqueue_failure_surfacing (ch : ChannelState)
    (h : ch.receiverAlive = false) (m : IotMessage) (st : TwinUpdateState)
    (v : JsonValue) (reason : UnauthenticatedReason) :
    (handle_c2d_message ch m).2 = .error .sendError ∧
    (handle_twin_desired ch st v).2 = .error .sendError ∧
    handle_connection_status ch .Authenticated = .panicked ∧
    handle_connection_status ch (.Unauthenticated reason) = .panicked := by
  simp [handle_c2d_message, handle_twin_desired, handle_connection_status,
    chanSend, h]

/-- Witness for the amended C7 at a concrete dead channel. -/
theorem enqueue_failure_surfacing_witness :
    (ChannelState.mk [] false).receiverAlive = false ∧
    ((handle_c2d_message ⟨[], false⟩ ⟨5⟩).2 = .error .sendError ∧
      (handle_twin_desired ⟨[], false⟩ .Patch ⟨7⟩).2 = .error .sendError ∧
      handle_connection_status ⟨[], false⟩ .Authenticated = .panicked ∧
      handle_connection_status ⟨[], false⟩ (.Unauthenticated ⟨2⟩) = .panicked) :=
  ⟨rfl, enqueue_failure_surfacing ⟨[], false⟩ rfl ⟨5⟩ .Patch ⟨7⟩ ⟨2⟩⟩

/-- C8 counterexample: a disconnected application-to-manager channel does
not terminate the loop.  With the first receive reporting `Disconnected`,
the iteration still performs its `do_work` tick and the loop proceeds to a
further iteration (a second flag read), exiting only because the flag is
false there — refuting the claim that any receive failure other than a
timeout terminates the loop. -/
theorem disconnected_recv_does_not_terminate :
    runLoop (fun _ => .ok ()) [⟨true, .disconnected⟩, ⟨false, .timeout⟩] 0 =
      some (.ok, [.flagRead true, .doWork, .flagRead false]) := rfl

/-- C8 amended: the run loop locally recovers from every failure of the
per-iteration channel receive — the `Err(_)` arm treats a timeout and a
disconnected channel identically as a no-op iteration that still performs
`do_work` and continues; neither terminates the loop. -/
theorem recv_failure_locally_recovered (σ : Nat → Except IotError Unit)
    (rest : List IterInput) (k : Nat) :
    runLoop σ (⟨true, .disconnected⟩ :: rest) k =
      (runLoop σ rest k).map (fun r => (r.1, .flagRead true :: .doWork :: r.2)) ∧
    runLoop σ (⟨true, .timeout⟩ :: rest) k =
      (runLoop σ rest k).map (fun r => (r.1, .flagRead true :: .doWork :: r.2)) :=
  ⟨rfl, rfl⟩

/-- C3: if a transport send fails, the loop terminates right there — the
trace of that iteration ends with the failing call (`send_reported_state`
or `send_d2c_message`), no `do_work` tick follows, nothing from the rest of
the environment (messages submitted after the failing one) is ever applied
to the transport, the loop's terminal result is exactly the transport's
error, and `stop()` on a client holding that terminal result returns that
same error. -/
theorem send_error_terminates_loop (σ : Nat → Except IotError Unit)
    (k : Nat) (rest : List IterInput) (e : IotError) (v : JsonValue)
    (m : IotMessage) (b : Bool) (h : σ k = .error e) :
    runLoop σ (⟨true, .msg (.Reported v)⟩ :: rest) k =
      some (.err e, [.flagRead true, .sendReported v]) ∧
    runLoop σ (⟨true, .msg (.D2C m)⟩ :: rest) k =
      some (.err e, [.flagRead true, .sendD2C m]) ∧
    (Client.stop ⟨some (.err e), b⟩).1 = .err e := by
  refine ⟨?_, ?_, rfl⟩ <;> simp [runLoop, h]

/-- Witness for C3 at a concrete failing transport and concrete messages. -/
theorem send_error_terminates_loop_witness :
    (fun _ : Nat => (Except.error (IotError.transportError 7) : Except IotError Unit)) 0 =
      .error (.transportError 7) ∧
    (runLoop (fun _ => .error (.transportError 7))
        [⟨true, .msg (.Reported ⟨1⟩)⟩, ⟨true, .msg (.D2C ⟨2⟩)⟩] 0 =
      some (.err (.transportError 7), [.flagRead true, .sendReported ⟨1⟩]) ∧
    runLoop (fun _ => .error (.transportError 7))
        [⟨true, .msg (.D2C ⟨3⟩)⟩, ⟨true, .msg (.D2C ⟨2⟩)⟩] 0 =
      some (.err (.transportError 7), [.flagRead true, .sendD2C ⟨3⟩]) ∧
    (Client.stop ⟨some (.err (.transportError 7)), false⟩).1 =
      .err (.transportError 7)) :=
  ⟨rfl, (send_error_terminates_loop (fun _ => .error (.transportError 7)) 0
      [⟨true, .msg (.D2C ⟨2⟩)⟩] (.transportError 7) ⟨1⟩ ⟨3⟩ false rfl)⟩

/-- C5: if transport construction fails, the background task ends with that
construction error before the loop runs — its event trace is empty, so no
`send_reported_state`, `send_d2c_message` or `do_work` call ever happens —
and a `run()` that spawned this task followed by `stop()` yields exactly
that failure. -/
theorem construction_failure_aborts
    (construct : TransportSource → Except IotError Unit)
    (σ : Nat → Except IotError Unit) (ct : ClientType) (cs : Option String)
    (inputs : List IterInput) (e : IotError) (c : Client)
    (h : construct (selectTransportSource ct cs) = .error e) :
    runTask construct σ ct cs inputs = some (.err e, []) ∧
    ((Client.run c construct σ ct cs inputs).1.stop).1 = .err e := by
  constructor
  · simp [runTask, h]
  · simp [Client.run, Client.stop, runTask, h]

/-- Witness for C5 at a concrete failing constructor. -/
theorem construction_failure_aborts_witness :
    (fun _ : TransportSource =>
        (Except.error (IotError.constructionError 3) : Except IotError Unit))
      (selectTransportSource .Device none) = .error (.constructionError 3) ∧
    (runTask (fun _ => .error (.constructionError 3)) (fun _ => .ok ())
        .Device none [⟨true, .msg .Terminate⟩] =
      some (.err (.constructionError 3), []) ∧
    ((Client.run Client.new (fun _ => .error (.constructionError 3))
        (fun _ => .ok ()) .Device none [⟨true, .msg .Terminate⟩]).1.stop).1 =
      .err (.constructionError 3)) :=
  ⟨rfl, construction_failure_aborts (fun _ => .error (.constructionError 3))
    (fun _ => .ok ()) .Device none [⟨true, .msg .Terminate⟩]
    (.constructionError 3) Client.new rfl⟩

/-- Helper for C1: over any iteration environment in which the run flag
stays true, every transport send succeeds and a `Terminate` is eventually
received, the loop exits successfully and the transport send calls in its
trace are exactly the sends prescribed by the received message sequence, in
order.  Stated for every starting send counter `k`. -/
theorem runLoop_all_ok_sends (σ : Nat → Except IotError Unit)
    (hσ : ∀ k, σ k = .ok ()) :
    ∀ (inputs : List IterInput) (k : Nat),
      (∀ i ∈ inputs, i.flag = true) →
      Message.Terminate ∈ recvMsgs inputs →
      ∃ tr, runLoop σ inputs k = some (.ok, tr) ∧
        tr.filter isSend = outboundSends (recvMsgs inputs) := by
  intro inputs
  induction inputs with
  | nil =>
      intro k _ hterm
      simp [recvMsgs] at hterm
  | cons i rest ih =>
      intro k hflag hterm
      obtain ⟨f, r⟩ := i
      have hf : f = true := hflag ⟨f, r⟩ (List.mem_cons_self _ _)
      subst hf
      have hrest : ∀ j ∈ rest, j.flag = true := fun j hj =>
        hflag j (List.mem_cons_of_mem _ hj)
      cases r with
      | timeout =>
          have hterm' : Message.Terminate ∈ recvMsgs rest := by
            simpa [recvMsgs] using hterm
          obtain ⟨tr, htr, hsends⟩ := ih k hrest hterm'
          refine ⟨.flagRead true :: .doWork :: tr, ?_, ?_⟩
          · simp [runLoop, htr]
          · simpa [List.filter_cons, isSend, recvMsgs] using hsends
      | disconnected =>
          have hterm' : Message.Terminate ∈ recvMsgs rest := by
            simpa [recvMsgs] using hterm
          obtain ⟨tr, htr, hsends⟩ := ih k hrest hterm'
          refine ⟨.flagRead true :: .doWork :: tr, ?_, ?_⟩
          · simp [runLoop, htr]
          · simpa [List.filter_cons, isSend, recvMsgs] using hsends
      | msg m =>
          cases m with
          | Reported v =>
              have hterm' : Message.Terminate ∈ recvMsgs rest := by
                simpa [recvMsgs] using hterm
              obtain ⟨tr, htr, hsends⟩ := ih (k + 1) hrest hterm'
              refine ⟨.flagRead true :: .sendReported v :: .doWork :: tr, ?_, ?_⟩
              · simp [runLoop, hσ k, htr]
              · simpa [List.filter_cons, isSend, recvMsgs, outboundSends]
                  using hsends
          | D2C p =>
              have hterm' : Message.Terminate ∈ recvMsgs rest := by
                simpa [recvMsgs] using hterm
              obtain ⟨tr, htr, hsends⟩ := ih (k + 1) hrest hterm'
              refine ⟨.flagRead true :: .sendD2C p :: .doWork :: tr, ?_, ?_⟩
              · simp [runLoop, hσ k, htr]
              · simpa [List.filter_cons, isSend, recvMsgs, outboundSends]
                  using hsends
          | Terminate =>
              refine ⟨[.flagRead true], rfl, ?_⟩
              simp [List.filter_cons, isSend, recvMsgs, outboundSends]
          | Desired st v =>
              have hterm' : Message.Terminate ∈ recvMsgs rest := by
                simpa [recvMsgs] using hterm
              obtain ⟨tr, htr, hsends⟩ := ih k hrest hterm'
              refine ⟨.flagRead true :: .doWork :: tr, ?_, ?_⟩
              · simp [runLoop, htr]
              · simpa [List.filter_cons, isSend, recvMsgs, outboundSends]
                  using hsends
          | C2D p =>
              have hterm' : Message.Terminate ∈ recvMsgs rest := by
                simpa [recvMsgs] using hterm
              obtain ⟨tr, htr, hsends⟩ := ih k hrest hterm'
              refine ⟨.flagRead true :: .doWork :: tr, ?_, ?_⟩
              · simp [runLoop, htr]
              · simpa [List.filter_cons, isSend, recvMsgs, outboundSends]
                  using hsends
          | Authenticated =>
              have hterm' : Message.Terminate ∈ recvMsgs rest := by
                simpa [recvMsgs] using hterm
              obtain ⟨tr, htr, hsends⟩ := ih k hrest hterm'
              refine ⟨.flagRead true :: .doWork :: tr, ?_, ?_⟩
              · simp [runLoop, htr]
              · simpa [List.filter_cons, isSend, recvMsgs, outboundSends]
                  using hsends
          | Unauthenticated reason =>
              have hterm' : Message.Terminate ∈ recvMsgs rest := by
                simpa [recvMsgs] using hterm
              obtain ⟨tr, htr, hsends⟩ := ih k hrest hterm'
              refine ⟨.flagRead true :: .doWork :: tr, ?_, ?_⟩
              · simp [runLoop, htr]
              · simpa [List.filter_cons, isSend, recvMsgs, outboundSends]
                  using hsends

/-- C1: for every sequence of messages submitted on the
application-to-manager channel with a `Terminate` among them, while the run
flag stays true and every transport send succeeds, the run loop exits
successfully and invokes the transport's `send_reported_state` /
`send_d2c_message` operations exactly for the `Reported` / `D2C` messages
received before the `Terminate`, in the same relative order as submitted
(one receive per iteration; other variants and receive failures contribute
no send). -/
theorem fifo_order_preserved (σ : Nat → Except IotError Unit)
    (inputs : List IterInput) (hσ : ∀ k, σ k = .ok ())
    (hflag : ∀ i ∈ inputs, i.flag = true)
    (hterm : Message.Terminate ∈ recvMsgs inputs) :
    ∃ tr, runLoop σ inputs 0 = some (.ok, tr) ∧
      tr.filter isSend = outboundSends (recvMsgs inputs) :=
  runLoop_all_ok_sends σ hσ inputs 0 hflag hterm

/-- Witness for C1 on a concrete three-message environment. -/
theorem fifo_order_preserved_witness :
    Message.Terminate ∈ recvMsgs
      [⟨true, .msg (.D2C ⟨1⟩)⟩, ⟨true, .msg (.Reported ⟨2⟩)⟩,
        ⟨true, .msg .Terminate⟩] ∧
    ∃ tr, runLoop (fun _ => .ok ())
        [⟨true, .msg (.D2C ⟨1⟩)⟩, ⟨true, .msg (.Reported ⟨2⟩)⟩,
          ⟨true, .msg .Terminate⟩] 0 = some (.ok, tr) ∧
      tr.filter isSend = outboundSends (recvMsgs
        [⟨true, .msg (.D2C ⟨1⟩)⟩, ⟨true, .msg (.Reported ⟨2⟩)⟩,
          ⟨true, .msg .Terminate⟩]) :=
  ⟨by decide,
    fifo_order_preserved (fun _ => .ok ())
      [⟨true, .msg (.D2C ⟨1⟩)⟩, ⟨true, .msg (.Reported ⟨2⟩)⟩,
        ⟨true, .msg .Terminate⟩]
      (fun _ => rfl) (by decide) (by decide)⟩

/-- Helper for C9: whenever the run loop exits within its iteration
environment, the flag accesses in its trace are exactly one read per
executed iteration, taken at the iteration boundary with the value the
environment supplied there — in particular the loop never writes the
flag. -/
theorem runLoop_flag_accesses (σ : Nat → Except IotError Unit) :
    ∀ (inputs : List IterInput) (k : Nat) (res : LoopExit) (tr : List Ev),
      runLoop σ inputs k = some (res, tr) →
      ∃ n, tr.filter isFlagAccess =
        (inputs.take n).map fun i => Ev.flagRead i.flag := by
  intro inputs
  induction inputs with
  | nil =>
      intro k res tr h
      simp [runLoop] at h
  | cons i rest ih =>
      intro k res tr h
      obtain ⟨f, r⟩ := i
      cases f with
      | false =>
          simp [runLoop] at h
          obtain ⟨-, h2⟩ := h
          subst h2
          exact ⟨1, by simp [List.filter_cons, isFlagAccess]⟩
      | true =>
          cases r with
          | timeout =>
              cases hrl : runLoop σ rest k with
              | none => simp [runLoop, hrl] at h
              | some p =>
                  obtain ⟨res', tr'⟩ := p
                  simp [runLoop, hrl] at h
                  obtain ⟨-, h2⟩ := h
                  subst h2
                  obtain ⟨n, hn⟩ := ih k res' tr' hrl
                  exact ⟨n + 1, by simp [List.filter_cons, isFlagAccess, hn]⟩
          | disconnected =>
              cases hrl : runLoop σ rest k with
              | none => simp [runLoop, hrl] at h
              | some p =>
                  obtain ⟨res', tr'⟩ := p
                  simp [runLoop, hrl] at h
                  obtain ⟨-, h2⟩ := h
                  subst h2
                  obtain ⟨n, hn⟩ := ih k res' tr' hrl
                  exact ⟨n + 1, by simp [List.filter_cons, isFlagAccess, hn]⟩
          | msg m =>
              cases m with
              | Reported v =>
                  cases hs : σ k with
                  | error e =>
                      simp [runLoop, hs] at h
                      obtain ⟨-, h2⟩ := h
                      subst h2
                      exact ⟨1, by simp [List.filter_cons, isFlagAccess]⟩
                  | ok u =>
                      cases hrl : runLoop σ rest (k + 1) with
                      | none => simp [runLoop, hs, hrl] at h
                      | some p =>
                          obtain ⟨res', tr'⟩ := p
                          simp [runLoop, hs, hrl] at h
                          obtain ⟨-, h2⟩ := h
                          subst h2
                          obtain ⟨n, hn⟩ := ih (k + 1) res' tr' hrl
                          exact ⟨n + 1,
                            by simp [List.filter_cons, isFlagAccess, hn]⟩
              | D2C p0 =>
                  cases hs : σ k with
                  | error e =>
                      simp [runLoop, hs] at h
                      obtain ⟨-, h2⟩ := h
                      subst h2
                      exact ⟨1, by simp [List.filter_cons, isFlagAccess]⟩
                  | ok u =>
                      cases hrl : runLoop σ rest (k + 1) with
                      | none => simp [runLoop, hs, hrl] at h
                      | some p =>
                          obtain ⟨res', tr'⟩ := p
                          simp [runLoop, hs, hrl] at h
                          obtain ⟨-, h2⟩ := h
                          subst h2
                          obtain ⟨n, hn⟩ := ih (k + 1) res' tr' hrl
                          exact ⟨n + 1,
                            by simp [List.filter_cons, isFlagAccess, hn]⟩
              | Terminate =>
                  simp [runLoop] at h
                  obtain ⟨-, h2⟩ := h
                  subst h2
                  exact ⟨1, by simp [List.filter_cons, isFlagAccess]⟩
              | Desired st v =>
                  cases hrl : runLoop σ rest k with
                  | none => simp [runLoop, hrl] at h
                  | some p =>
                      obtain ⟨res', tr'⟩ := p
                      simp [runLoop, hrl] at h
                      obtain ⟨-, h2⟩ := h
                      subst h2
                      obtain ⟨n, hn⟩ := ih k res' tr' hrl
                      exact ⟨n + 1, by simp [List.filter_cons, isFlagAccess, hn]⟩
              | C2D p0 =>
                  cases hrl : runLoop σ rest k with
                  | none => simp [runLoop, hrl] at h
                  | some p =>
                      obtain ⟨res', tr'⟩ := p
                      simp [runLoop, hrl] at h
                      obtain ⟨-, h2⟩ := h
                      subst h2
                      obtain ⟨n, hn⟩ := ih k res' tr' hrl
                      exact ⟨n + 1, by simp [List.filter_cons, isFlagAccess, hn]⟩
              | Authenticated =>
                  cases hrl : runLoop σ rest k with
                  | none => simp [runLoop, hrl] at h
                  | some p =>
                      obtain ⟨res', tr'⟩ := p
                      simp [runLoop, hrl] at h
                      obtain ⟨-, h2⟩ := h
                      subst h2
                      obtain ⟨n, hn⟩ := ih k res' tr' hrl
                      exact ⟨n + 1, by simp [List.filter_cons, isFlagAccess, hn]⟩
              | Unauthenticated reason =>
                  cases hrl : runLoop σ rest k with
                  | none => simp [runLoop, hrl] at h
                  | some p =>
                      obtain ⟨res', tr'⟩ := p
                      simp [runLoop, hrl] at h
                      obtain ⟨-, h2⟩ := h
                      subst h2
                      obtain ⟨n, hn⟩ := ih k res' tr' hrl
                      exact ⟨n + 1, by simp [List.filter_cons, isFlagAccess, hn]⟩

/-- C9: flag-access discipline — the run-loop task's trace touches the
shared run flag only through reads, exactly one per executed iteration at
the iteration boundary (with the value the flag held there); the lifecycle
operations are the only writers, `run()` performing exactly the single
write to true (and leaving the stored flag true) and `stop()` performing
exactly the single write to false. -/
theorem run_flag_write_discipline :
    (∀ (σ : Nat → Except IotError Unit) (inputs : List IterInput) (k : Nat)
        (res : LoopExit) (tr : List Ev),
        runLoop σ inputs k = some (res, tr) →
        ∃ n, tr.filter isFlagAccess =
          (inputs.take n).map fun i => Ev.flagRead i.flag) ∧
    (∀ (c : Client) (construct : TransportSource → Except IotError Unit)
        (σ : Nat → Except IotError Unit) (ct : ClientType)
        (cs : Option String) (inputs : List IterInput),
        (Client.run c construct σ ct cs inputs).2 = [Ev.flagWriteTrue] ∧
        (Client.run c construct σ ct cs inputs).1.runFlag = true) ∧
    (∀ c : Client, (Client.stop c).2 = [Ev.flagWriteFalse]) := by
  refine ⟨runLoop_flag_accesses, fun _ _ _ _ _ _ => ⟨rfl, rfl⟩, fun c => ?_⟩
  rcases c with ⟨th, b⟩
  cases th with
  | none => rfl
  | some r => cases r <;> rfl

/-- Witness for C9 on a concrete single-iteration environment. -/
theorem run_flag_write_discipline_witness :
    ∃ n, ([Ev.flagRead false].filter isFlagAccess) =
      (([⟨false, RecvResult.timeout⟩] : List IterInput).take n).map
        fun i => Ev.flagRead i.flag :=
  run_flag_write_discipline.1 (fun _ => .ok ()) [⟨false, .timeout⟩] 0
    .ok [.flagRead false] rfl

end WindfarmClient
